import Mathlib

/-!
Shallow embedding of the RouteGPT backend (Express controller
`api/controllers/directionsController.js`, cache `api/utils/cache.js`,
route `api/routes/directions.js`).

Strings are modelled over their underlying character lists; JavaScript's
`toLowerCase`, `trim` and `includes` are embedded for the ASCII fragment the
code actually compares against.  Numbers flowing through the distance and
traffic helpers are modelled as rationals.  The generative-model calls and
the mapping-provider call are oracles supplied as function parameters; the
HTTP handler is embedded as a pure function that additionally returns the
list of upstream calls it issued and the updated cache state.
-/

namespace RouteGPT

/-! ### JavaScript string primitives (ASCII fragment) -/

/-- ASCII lower-casing of a single character, the fragment of
JavaScript `toLowerCase` relevant to the comparisons in the source. -/
def lowerChar (c : Char) : Char :=
  if 'A' ≤ c ∧ c ≤ 'Z' then Char.ofNat (c.toNat + 32) else c

/-- JavaScript `String.prototype.toLowerCase` (ASCII fragment). -/
def jsToLower (s : String) : String := String.mk (s.data.map lowerChar)

/-- Whitespace recognised by JavaScript `trim` (ASCII fragment). -/
def isWS (c : Char) : Bool :=
  c == ' ' || c == '\t' || c == '\n' || c == '\r' || c == '\x0b' || c == '\x0c'

/-- JavaScript `String.prototype.trim` (ASCII whitespace). -/
def jsTrim (s : String) : String :=
  String.mk (((s.data.dropWhile isWS).reverse.dropWhile isWS).reverse)

/-- Boolean list-level test that the first list starts the second. -/
def isPrefixCL : List Char → List Char → Bool
  | [], _ => true
  | _ :: _, [] => false
  | a :: as, b :: bs => a == b && isPrefixCL as bs

/-- Boolean substring containment: does `needle` occur inside `hay`? -/
def containsCL : (hay : List Char) → (needle : List Char) → Bool
  | [], n => isPrefixCL n []
  | c :: t, n => isPrefixCL n (c :: t) || containsCL t n

/-- JavaScript `String.prototype.includes`. -/
def jsIncludes (s sub : String) : Bool := containsCL s.data sub.data

/-! ### `addLocationQualifier` (api/controllers/directionsController.js) -/

/-- The constant `lagosAreas` array from `addLocationQualifier`. -/
def lagosAreas : List String :=
  ["Ikeja", "Victoria Island", "Lekki", "Ajah", "Ikoyi", "Surulere",
   "Yaba", "Apapa", "Oshodi", "Mushin", "Maryland", "Ojota", "Ogudu",
   "Gbagada", "Magodo", "Ojodu", "Berger", "Agege", "Ikorodu", "Epe"]

/-- The `lagosAreas.some(...)` guard inside `addLocationQualifier`. -/
def lagosBranch (location : String) : Bool :=
  lagosAreas.any (fun area =>
    jsIncludes (jsToLower location) (jsToLower area) &&
      !(jsIncludes (jsToLower location) "lagos"))

/-- `addLocationQualifier` from the controller. -/
def addLocationQualifier (location : String) : String :=
  if lagosBranch location then
    location ++ ", Lagos, Nigeria"
  else if !(jsIncludes (jsToLower location) "nigeria") then
    location ++ ", Nigeria"
  else
    location

/-! ### `getDistanceContext` and `getTrafficStatus` -/

/-- A `{text, value}` object of the mapping provider (distances in meters,
durations in seconds); `value` may be absent on a dynamic JS object. -/
structure TextValue where
  text : String
  value : Option ℚ
deriving DecidableEq

/-- `getDistanceContext` from the controller.  The JS reads
`distance?.value || 0`: an absent object, an absent `value` field and a
zero value all collapse to `0`. -/
def getDistanceContext (distance : Option TextValue) : String :=
  let meters : ℚ :=
    match distance with
    | none => 0
    | some d =>
      match d.value with
      | none => 0
      | some v => v
  let kilometers := meters / 1000
  if kilometers < 3 then "nearby"
  else if kilometers < 10 then "short"
  else if kilometers < 30 then "medium"
  else "long"

/-- The threshold chain of `getTrafficStatus` as a function of the
percentage increase. -/
def trafficBucket (percentageIncrease : ℚ) : String :=
  if percentageIncrease ≤ 10 then "Light traffic"
  else if percentageIncrease ≤ 30 then "Moderate traffic"
  else if percentageIncrease ≤ 50 then "Heavy traffic"
  else "Severe traffic"

/-- `getTrafficStatus` from the controller.  The JS guard
`!normalDuration || !trafficDuration` is true exactly when a duration is
absent (`undefined`) or `0`. -/
def getTrafficStatus : Option ℚ → Option ℚ → String
  | some normalDuration, some trafficDuration =>
    if normalDuration = 0 ∨ trafficDuration = 0 then "Unknown"
    else
      let difference := trafficDuration - normalDuration
      let percentageIncrease := difference / normalDuration * 100
      trafficBucket percentageIncrease
  | _, _ => "Unknown"

/-- Severity order of the traffic labels, for the monotonicity statement. -/
def severityRank (label : String) : Nat :=
  if label = "Light traffic" then 0
  else if label = "Moderate traffic" then 1
  else if label = "Heavy traffic" then 2
  else 3

/-! ### `classifyQuery` and `formatDirections`

The generative-model call inside each function is an oracle: its outcome
(reply text, or a thrown error) is the function's argument. -/

/-- `classifyQuery`: on a successful model call the reply is trimmed and
lower-cased and returned verbatim; on any error the function logs and
returns the default category. -/
def classifyQuery (modelCall : Except String String) : String :=
  match modelCall with
  | .ok reply => jsToLower (jsTrim reply)
  | .error _ => "directions"

/-- An error value reaching a JS `catch`: its `message`, and its `status`
field when one exists (plain `Error` objects have none). -/
structure JsError where
  message : String
  status : Option Nat
deriving DecidableEq

/-- `formatDirections` (controller version): the whole `try` block —
data access, prompt assembly and the model call — is guarded by a `catch`
that returns the literal fallback string instead of rethrowing. -/
def formatDirections (modelCall : Except JsError String) : String :=
  match modelCall with
  | .ok text => text
  | .error _ => "Error formatting directions"

/-! ### Response cache (`api/utils/cache.js`)

`new NodeCache({ stdTTL: 300 })`: keys live for 300 seconds from
insertion.  Time is a natural number of seconds. -/

/-- A cached value: the formatted response and the query type. -/
structure CacheEntry where
  response : String
  query_type : String
deriving DecidableEq

/-- The cache table: key, value and insertion time per entry. -/
abbrev CacheState := List (String × CacheEntry × Nat)

/-- `routeCache.get(key)`: a stored entry is returned while unexpired. -/
def cacheGet (c : CacheState) (now : Nat) (key : String) : Option CacheEntry :=
  match c.find? (fun e => e.1 == key) with
  | some (_, v, t) => if now ≤ t + 300 then some v else none
  | none => none

/-- `routeCache.set(key, value)`: insert, overwriting a previous entry. -/
def cacheSet (c : CacheState) (now : Nat) (key : String) (v : CacheEntry) :
    CacheState :=
  (key, v, now) :: c.filter (fun e => !(e.1 == key))

/-! ### The HTTP handler `getDirections` -/

/-- Provider-specific travel parameters from the `modeMapping` table. -/
structure ModeConfig where
  mode : String
  avoid : Option (List String)
  transit_mode : Option (List String)
deriving DecidableEq

/-- The validated result of `extractLocationsAndMode`. -/
structure Intent where
  origin : String
  destination : String
  mode : String
  modeConfig : ModeConfig
deriving DecidableEq

/-- The `params` object passed to `mapsClient.directions`. -/
structure DirectionsParams where
  origin : String
  destination : String
  key : String
  modeConfig : ModeConfig
  departure_time : String
  alternatives : Bool
  traffic_model : String
deriving DecidableEq

/-- A step of a leg in the provider payload. -/
structure ProviderStep where
  html_instructions : String
  distance : Option TextValue
  duration : Option TextValue
  maneuver : Option String
deriving DecidableEq

/-- A leg of a route in the provider payload. -/
structure ProviderLeg where
  distance : Option TextValue
  duration : Option TextValue
  duration_in_traffic : Option TextValue
  steps : List ProviderStep
deriving DecidableEq

/-- A route alternative in the provider payload. -/
structure ProviderRoute where
  summary : String
  legs : List ProviderLeg
deriving DecidableEq

/-- The `data` object of the provider response. -/
structure DirData where
  status : String
  routes : List ProviderRoute
deriving DecidableEq

/-- The provider response; `data` may be absent. -/
structure DirResponse where
  data : Option DirData
deriving DecidableEq

/-- A simplified step of `responseData`. -/
structure SimpleStep where
  instructions : String
  distance : Option TextValue
  duration : Option TextValue
  maneuver : Option String
deriving DecidableEq

/-- A simplified leg of `responseData`. -/
structure SimpleLeg where
  distance : Option TextValue
  duration : Option TextValue
  duration_in_traffic : Option TextValue
  steps : List SimpleStep
deriving DecidableEq

/-- A simplified route of `responseData`. -/
structure SimpleRoute where
  summary : String
  legs : List SimpleLeg
deriving DecidableEq

/-- The `responseData` object built by the handler. -/
structure ResponseData where
  routes : List SimpleRoute
  mode : String
  current_time : String
deriving DecidableEq

/-- The `routes.map(...)` reshaping inside the handler. -/
def simplifyRoutes (routes : List ProviderRoute) : List SimpleRoute :=
  routes.map (fun route =>
    { summary := route.summary
      legs := route.legs.map (fun leg =>
        { distance := leg.distance
          duration := leg.duration
          duration_in_traffic := leg.duration_in_traffic
          steps := leg.steps.map (fun step =>
            { instructions := step.html_instructions
              distance := step.distance
              duration := step.duration
              maneuver := step.maneuver }) }) })

/-- The upstream collaborators, as oracles: `extractLocationsAndMode`
as a whole (it wraps its own model call and validation and throws a plain
`Error` carrying only a message), the model call inside `classifyQuery`,
the mapping provider, and the model call inside each formatter. -/
structure Upstream where
  extractLocationsAndMode : String → Except String Intent
  classifyModel : String → Except String String
  directions : DirectionsParams → Except JsError DirResponse
  formatDirectionsModel : ResponseData → Except JsError String
  formatTrafficCheck : ResponseData → String → String → Except JsError String
  formatDurationCheck : ResponseData → String → String → Except JsError String
  formatRouteStatus : ResponseData → String → String → Except JsError String

/-- One upstream call issued by the handler. -/
inductive UpCall
  | extract
  | classify
  | directions
  | format
deriving DecidableEq

/-- A JSON body sent by the handler. -/
inductive Body
  | success (response : String) (query_type : String)
  | error (error : String) (details : Option String)
deriving DecidableEq

/-- An HTTP response: status code and JSON body.  `res.json(x)` alone
sends status 200. -/
structure HttpResponse where
  status : Nat
  body : Body
deriving DecidableEq

/-- What one handler run produces: the HTTP response, the cache state
after the run, and the upstream calls issued, in order. -/
structure HandlerResult where
  res : HttpResponse
  cache : CacheState
  calls : List UpCall
deriving DecidableEq

/-- JavaScript `error.status || 500` (`undefined` and `0` give 500). -/
def jsOr500 (status : Option Nat) : Nat :=
  match status with
  | none => 500
  | some s => if s = 0 then 500 else s

/-- The handler `getDirections` of the controller.  `reqQuery` is the
`query` field of the request body (`none` when the field is missing);
`now` is the clock in seconds and `currentTime` the value of
`new Date().toLocaleTimeString()`.  Reading `query.toLowerCase()` on a
missing field throws a `TypeError` that the outer `catch` turns into a
500 response; the `!query` guard is reached only for a present, empty
string.  `Promise.all` issues the extraction and the classification calls
together before either result is inspected. -/
def getDirections (up : Upstream) (mapsKey : String) (now : Nat)
    (currentTime : String) (cache : CacheState) (reqQuery : Option String) :
    HandlerResult :=
  match reqQuery with
  | none =>
    { res := { status := 500
               body := .error "Error processing request"
                 (some "Cannot read properties of undefined (reading 'toLowerCase')") }
      cache := cache
      calls := [] }
  | some query =>
    let cacheKey := jsTrim (jsToLower query)
    match cacheGet cache now cacheKey with
    | some cachedResponse =>
      { res := { status := 200
                 body := .success cachedResponse.response cachedResponse.query_type }
        cache := cache
        calls := [] }
    | none =>
      if query = "" then
        { res := { status := 400, body := .error "Query is required" none }
          cache := cache
          calls := [] }
      else
        let queryType := classifyQuery (up.classifyModel query)
        match up.extractLocationsAndMode query with
        | .error msg =>
          { res := { status := 500
                     body := .error "Error processing request" (some msg) }
            cache := cache
            calls := [.extract, .classify] }
        | .ok intent =>
          let params : DirectionsParams :=
            { origin := intent.origin
              destination := intent.destination
              key := mapsKey
              modeConfig := intent.modeConfig
              departure_time := "now"
              alternatives := true
              traffic_model := "best_guess" }
          match up.directions params with
          | .error e =>
            { res := { status := jsOr500 e.status
                       body := .error "Error processing request" (some e.message) }
              cache := cache
              calls := [.extract, .classify, .directions] }
          | .ok dresp =>
            match dresp.data with
            | none =>
              { res := { status := 500
                         body := .error "Error processing request"
                           (some "Invalid response: undefined") }
                cache := cache
                calls := [.extract, .classify, .directions] }
            | some d =>
              if d.status ≠ "OK" then
                { res := { status := 500
                           body := .error "Error processing request"
                             (some ("Invalid response: " ++ d.status)) }
                  cache := cache
                  calls := [.extract, .classify, .directions] }
              else
                let responseData : ResponseData :=
                  { routes := simplifyRoutes d.routes
                    mode := intent.mode
                    current_time := currentTime }
                let fmtResult : Except JsError String :=
                  if queryType = "traffic_check" then
                    up.formatTrafficCheck responseData intent.origin intent.destination
                  else if queryType = "duration_check" then
                    up.formatDurationCheck responseData intent.origin intent.destination
                  else if queryType = "route_status" then
                    up.formatRouteStatus responseData intent.origin intent.destination
                  else
                    .ok (formatDirections (up.formatDirectionsModel responseData))
                match fmtResult with
                | .error e =>
                  { res := { status := jsOr500 e.status
                             body := .error "Error processing request" (some e.message) }
                    cache := cache
                    calls := [.extract, .classify, .directions, .format] }
                | .ok formattedResponse =>
                  { res := { status := 200
                             body := .success formattedResponse queryType }
                    cache := cacheSet cache now cacheKey
                      { response := formattedResponse, query_type := queryType }
                    calls := [.extract, .classify, .directions, .format] }

/-- A concrete upstream instance used by witnesses and counterexamples:
extraction succeeds, classification answers the default category, and the
mapping provider answers with data status `NOT_FOUND`. -/
def upSample : Upstream where
  extractLocationsAndMode := fun _ =>
    .ok { origin := "Ikeja, Lagos, Nigeria"
          destination := "Yaba, Lagos, Nigeria"
          mode := "car"
          modeConfig := { mode := "DRIVING", avoid := none, transit_mode := none } }
  classifyModel := fun _ => .ok "directions"
  directions := fun _ => .ok { data := some { status := "NOT_FOUND", routes := [] } }
  formatDirectionsModel := fun _ => .ok "Take the road."
  formatTrafficCheck := fun _ _ _ => .ok "Traffic is light."
  formatDurationCheck := fun _ _ _ => .ok "About 20 minutes."
  formatRouteStatus := fun _ _ _ => .ok "Roads are clear."

/-! ### Substring-containment lemmas -/

theorem containsCL_nil_needle (h : List Char) : containsCL h [] = true := by
  cases h <;> simp [containsCL, isPrefixCL]

theorem isPrefixCL_append_right (n a b : List Char)
    (h : isPrefixCL n a = true) : isPrefixCL n (a ++ b) = true := by
  induction n generalizing a with
  | nil => simp [isPrefixCL]
  | cons c ns ih =>
    cases a with
    | nil => simp [isPrefixCL] at h
    | cons d as =>
      simp only [isPrefixCL, Bool.and_eq_true] at h ⊢
      exact ⟨h.1, ih as h.2⟩

theorem containsCL_of_isPrefixCL (h n : List Char)
    (hp : isPrefixCL n h = true) : containsCL h n = true := by
  cases h with
  | nil => simpa [containsCL] using hp
  | cons c t => simp [containsCL, hp]

theorem containsCL_append_left (a b n : List Char)
    (h : containsCL a n = true) : containsCL (a ++ b) n = true := by
  induction a with
  | nil =>
    have : n = [] := by
      cases n with
      | nil => rfl
      | cons x xs => simp [containsCL, isPrefixCL] at h
    subst this
    exact containsCL_nil_needle b
  | cons c as ih =>
    simp only [containsCL, Bool.or_eq_true] at h
    rcases h with h1 | h2
    · exact containsCL_of_isPrefixCL _ _ (isPrefixCL_append_right n (c :: as) b h1)
    · simp only [List.cons_append, containsCL, Bool.or_eq_true]
      exact Or.inr (ih h2)

theorem containsCL_append_right (a b n : List Char)
    (h : containsCL b n = true) : containsCL (a ++ b) n = true := by
  induction a with
  | nil => simpa using h
  | cons c as ih =>
    simp only [List.cons_append, containsCL, Bool.or_eq_true]
    exact Or.inr ih

theorem isPrefixCL_append_cons (n a : List Char) (x : Char) (b : List Char)
    (h : isPrefixCL n (a ++ x :: b) = true) :
    isPrefixCL n a = true ∨ x ∈ n := by
  induction n generalizing a with
  | nil => exact Or.inl (by simp [isPrefixCL])
  | cons c ns ih =>
    cases a with
    | nil =>
      simp only [List.nil_append, isPrefixCL, Bool.and_eq_true, beq_iff_eq] at h
      exact Or.inr (by simp [h.1])
    | cons d as =>
      simp only [List.cons_append, isPrefixCL, Bool.and_eq_true] at h
      rcases ih as h.2 with h1 | h2
      · exact Or.inl (by simp [isPrefixCL, h.1, h1])
      · exact Or.inr (List.mem_cons_of_mem _ h2)

theorem containsCL_append_cons (a : List Char) (x : Char) (b n : List Char)
    (h : containsCL (a ++ x :: b) n = true) :
    containsCL a n = true ∨ containsCL (x :: b) n = true ∨ x ∈ n := by
  induction a with
  | nil => exact Or.inr (Or.inl h)
  | cons c as ih =>
    simp only [List.cons_append, containsCL, Bool.or_eq_true] at h
    rcases h with h1 | h2
    · rcases isPrefixCL_append_cons n (c :: as) x b h1 with hp | hx
      · exact Or.inl (containsCL_of_isPrefixCL _ _ hp)
      · exact Or.inr (Or.inr hx)
    · rcases ih h2 with h1 | h2 | h3
      · exact Or.inl (by simp [containsCL, h1])
      · exact Or.inr (Or.inl h2)
      · exact Or.inr (Or.inr h3)

theorem jsToLower_append (s t : String) :
    jsToLower (s ++ t) = jsToLower s ++ jsToLower t := by
  cases s with
  | mk a =>
    cases t with
    | mk b =>
      show String.mk ((a ++ b).map lowerChar) =
        String.mk (a.map lowerChar) ++ String.mk (b.map lowerChar)
      simp [List.map_append]
      rfl

theorem strData_append (s t : String) : (s ++ t).data = s.data ++ t.data := by
  cases s; cases t; rfl

theorem jsIncludes_append_right (s t sub : String)
    (h : jsIncludes t sub = true) : jsIncludes (s ++ t) sub = true := by
  unfold jsIncludes at *
  rw [strData_append]
  exact containsCL_append_right _ _ _ h

theorem jsIncludes_append_left (s t sub : String)
    (h : jsIncludes s sub = true) : jsIncludes (s ++ t) sub = true := by
  unfold jsIncludes at *
  rw [strData_append]
  exact containsCL_append_left _ _ _ h

/-! ### Facts about the qualifier's constants -/

theorem areasFact : ∀ a ∈ lagosAreas,
    containsCL (", nigeria").data (jsToLower a).data = false ∧
      ',' ∉ (jsToLower a).data := by decide

theorem area_not_in_suffixed (s a : String) (ha : a ∈ lagosAreas)
    (h : jsIncludes (jsToLower s) (jsToLower a) = false) :
    jsIncludes (jsToLower (s ++ ", Nigeria")) (jsToLower a) = false := by
  rw [jsToLower_append, show jsToLower ", Nigeria" = ", nigeria" from by decide]
  show containsCL (jsToLower s ++ ", nigeria").data (jsToLower a).data = false
  rw [strData_append]
  by_contra hc
  have hc' : containsCL ((jsToLower s).data ++ (", nigeria").data)
      (jsToLower a).data = true := by
    simpa [Bool.not_eq_false] using hc
  have hsplit := containsCL_append_cons (jsToLower s).data ',' (" nigeria").data
    (jsToLower a).data
    (by rw [show ((',' : Char) :: (" nigeria").data) = (", nigeria").data from rfl]
        exact hc')
  rcases hsplit with h1 | h2 | h3
  · rw [show containsCL (jsToLower s).data (jsToLower a).data
        = jsIncludes (jsToLower s) (jsToLower a) from rfl, h] at h1
    exact Bool.noConfusion h1
  · rw [show ((',' : Char) :: (" nigeria").data) = (", nigeria").data from rfl,
      (areasFact a ha).1] at h2
    exact Bool.noConfusion h2
  · exact (areasFact a ha).2 h3

theorem lagosBranch_iff (loc : String) :
    lagosBranch loc = true ↔
      ((∃ a ∈ lagosAreas, jsIncludes (jsToLower loc) (jsToLower a) = true) ∧
        jsIncludes (jsToLower loc) "lagos" = false) := by
  unfold lagosBranch
  rw [List.any_eq_true]
  constructor
  · rintro ⟨a, ha, hpa⟩
    simp only [Bool.and_eq_true, Bool.not_eq_true'] at hpa
    exact ⟨⟨a, ha, hpa.1⟩, hpa.2⟩
  · rintro ⟨⟨a, ha, hpa⟩, hl⟩
    exact ⟨a, ha, by simp [hpa, hl]⟩

/-! ### Claim theorems -/

/-- Claim C2: the location qualifier satisfies the spec's three examples,
and in general appends ", Lagos, Nigeria" exactly when the location
case-insensitively contains a known Lagos sub-region name without
mentioning "lagos", and otherwise appends ", Nigeria" iff "nigeria" is
absent. -/
theorem addLocationQualifier_spec :
    addLocationQualifier "Ikeja" = "Ikeja, Lagos, Nigeria" ∧
    addLocationQualifier "Lekki, Lagos" = "Lekki, Lagos, Nigeria" ∧
    addLocationQualifier "Paris" = "Paris, Nigeria" ∧
    ∀ loc : String,
      (((∃ a ∈ lagosAreas, jsIncludes (jsToLower loc) (jsToLower a) = true) ∧
          jsIncludes (jsToLower loc) "lagos" = false) →
        addLocationQualifier loc = loc ++ ", Lagos, Nigeria") ∧
      (¬((∃ a ∈ lagosAreas, jsIncludes (jsToLower loc) (jsToLower a) = true) ∧
          jsIncludes (jsToLower loc) "lagos" = false) →
        (jsIncludes (jsToLower loc) "nigeria" = false →
          addLocationQualifier loc = loc ++ ", Nigeria") ∧
        (jsIncludes (jsToLower loc) "nigeria" = true →
          addLocationQualifier loc = loc)) := by
  refine ⟨by decide, by decide, by decide, fun loc => ⟨?_, ?_⟩⟩
  · intro hcond
    have hb : lagosBranch loc = true := (lagosBranch_iff loc).mpr hcond
    simp [addLocationQualifier, hb]
  · intro hcond
    have hb : lagosBranch loc = false := by
      cases hcase : lagosBranch loc
      · rfl
      · exact absurd ((lagosBranch_iff loc).mp hcase) hcond
    refine ⟨fun hn => ?_, fun hn => ?_⟩
    · simp [addLocationQualifier, hb, hn]
    · simp [addLocationQualifier, hb, hn]

/-- Witness for C2: the Lagos-branch case of the general statement,
instantiated at "Ikeja". -/
theorem addLocationQualifier_spec_witness :
    addLocationQualifier "Ikeja" = "Ikeja, Lagos, Nigeria" :=
  (addLocationQualifier_spec.2.2.2 "Ikeja").1
    ⟨⟨"Ikeja", by decide, by decide⟩, by decide⟩

/-- Claim C9: `addLocationQualifier` is idempotent; every output
case-insensitively contains "nigeria", and an output of the Lagos branch
also contains "lagos". -/
theorem addLocationQualifier_idempotent (s : String) :
    addLocationQualifier (addLocationQualifier s) = addLocationQualifier s ∧
    jsIncludes (jsToLower (addLocationQualifier s)) "nigeria" = true ∧
    (lagosBranch s = true →
      jsIncludes (jsToLower (addLocationQualifier s)) "lagos" = true) := by
  by_cases hb : lagosBranch s = true
  · have hfs : addLocationQualifier s = s ++ ", Lagos, Nigeria" := by
      simp [addLocationQualifier, hb]
    have hlag : jsIncludes (jsToLower (s ++ ", Lagos, Nigeria")) "lagos" = true := by
      rw [jsToLower_append,
        show jsToLower ", Lagos, Nigeria" = ", lagos, nigeria" from by decide]
      exact jsIncludes_append_right _ _ _ (by decide)
    have hnig : jsIncludes (jsToLower (s ++ ", Lagos, Nigeria")) "nigeria" = true := by
      rw [jsToLower_append,
        show jsToLower ", Lagos, Nigeria" = ", lagos, nigeria" from by decide]
      exact jsIncludes_append_right _ _ _ (by decide)
    have hb2 : lagosBranch (s ++ ", Lagos, Nigeria") = false := by
      unfold lagosBranch
      rw [List.any_eq_false]
      intro a _
      simp [hlag]
    refine ⟨?_, by rw [hfs]; exact hnig, fun _ => by rw [hfs]; exact hlag⟩
    rw [hfs]
    simp [addLocationQualifier, hb2, hnig]
  · have hb' : lagosBranch s = false := by
      cases hcase : lagosBranch s
      · rfl
      · exact absurd hcase hb
    by_cases hn : jsIncludes (jsToLower s) "nigeria" = true
    · have hfs : addLocationQualifier s = s := by
        simp [addLocationQualifier, hb', hn]
      refine ⟨?_, by rw [hfs]; exact hn, fun hcon => absurd hcon hb⟩
      rw [hfs, hfs]
    · have hn' : jsIncludes (jsToLower s) "nigeria" = false := by
        cases hcase : jsIncludes (jsToLower s) "nigeria"
        · rfl
        · exact absurd hcase hn
      have hfs : addLocationQualifier s = s ++ ", Nigeria" := by
        simp [addLocationQualifier, hb', hn']
      have hnig : jsIncludes (jsToLower (s ++ ", Nigeria")) "nigeria" = true := by
        rw [jsToLower_append,
          show jsToLower ", Nigeria" = ", nigeria" from by decide]
        exact jsIncludes_append_right _ _ _ (by decide)
      have hb2 : lagosBranch (s ++ ", Nigeria") = false := by
        by_cases hl : jsIncludes (jsToLower s) "lagos" = true
        · have hlag2 : jsIncludes (jsToLower (s ++ ", Nigeria")) "lagos" = true := by
            rw [jsToLower_append,
              show jsToLower ", Nigeria" = ", nigeria" from by decide]
            exact jsIncludes_append_left _ _ _ hl
          unfold lagosBranch
          rw [List.any_eq_false]
          intro a _
          simp [hlag2]
        · have hl' : jsIncludes (jsToLower s) "lagos" = false := by
            cases hcase : jsIncludes (jsToLower s) "lagos"
            · rfl
            · exact absurd hcase hl
          have hareas : ∀ a ∈ lagosAreas,
              jsIncludes (jsToLower s) (jsToLower a) = false := by
            intro a ha
            unfold lagosBranch at hb'
            rw [List.any_eq_false] at hb'
            have hpa := hb' a ha
            cases hcase : jsIncludes (jsToLower s) (jsToLower a)
            · rfl
            · exact absurd (by simp [hcase, hl']) hpa
          unfold lagosBranch
          rw [List.any_eq_false]
          intro a ha
          have := area_not_in_suffixed s a ha (hareas a ha)
          simp [this]
      refine ⟨?_, by rw [hfs]; exact hnig, fun hcon => absurd hcon hb⟩
      rw [hfs]
      simp [addLocationQualifier, hb2, hnig]

/-- Witness for C9: the Lagos-branch clause instantiated at "Ikeja". -/
theorem addLocationQualifier_idempotent_witness :
    jsIncludes (jsToLower (addLocationQualifier "Ikeja")) "lagos" = true :=
  (addLocationQualifier_idempotent "Ikeja").2.2 (by decide)

/-- Claim C4. -/
theorem getDistanceContext_spec :
    (∀ d : Option TextValue,
      getDistanceContext d = "nearby" ∨ getDistanceContext d = "short" ∨
        getDistanceContext d = "medium" ∨ getDistanceContext d = "long") ∧
    (∀ (txt : String) (v : ℚ),
      (v / 1000 < 3 → getDistanceContext (some ⟨txt, some v⟩) = "nearby") ∧
      (3 ≤ v / 1000 → v / 1000 < 10 →
        getDistanceContext (some ⟨txt, some v⟩) = "short") ∧
      (10 ≤ v / 1000 → v / 1000 < 30 →
        getDistanceContext (some ⟨txt, some v⟩) = "medium") ∧
      (30 ≤ v / 1000 → getDistanceContext (some ⟨txt, some v⟩) = "long")) ∧
    getDistanceContext (some ⟨"2,999 m", some 2999⟩) = "nearby" ∧
    getDistanceContext (some ⟨"3.0 km", some 3000⟩) = "short" := by
  refine ⟨?_, ?_, by norm_num [getDistanceContext], by norm_num [getDistanceContext]⟩
  · intro d
    unfold getDistanceContext
    dsimp only
    split_ifs <;> tauto
  · intro txt v
    refine ⟨fun h1 => ?_, fun h1 h2 => ?_, fun h1 h2 => ?_, fun h1 => ?_⟩ <;>
      (unfold getDistanceContext; dsimp only; split_ifs <;> first | rfl | linarith)

/-- Witness for C4. -/
theorem getDistanceContext_spec_witness :
    getDistanceContext (some ⟨"7 km", some 7000⟩) = "short" :=
  (getDistanceContext_spec.2.1 "7 km" 7000).2.1 (by norm_num) (by norm_num)

/-- Claim C10. -/
theorem getDistanceContext_total :
    getDistanceContext none = "nearby" ∧
    (∀ txt : String, getDistanceContext (some ⟨txt, none⟩) = "nearby") ∧
    (∀ txt : String,
      getDistanceContext (some ⟨txt, none⟩) =
        getDistanceContext (some ⟨txt, some 0⟩)) ∧
    getDistanceContext none = getDistanceContext (some ⟨"0 m", some 0⟩) := by
  refine ⟨by norm_num [getDistanceContext], fun txt => by norm_num [getDistanceContext],
    fun txt => by norm_num [getDistanceContext], by norm_num [getDistanceContext]⟩

/-- Claim C3. -/
theorem getTrafficStatus_spec :
    (∀ n t : Option ℚ, getTrafficStatus n t = "Unknown" ↔
      (n = none ∨ n = some 0 ∨ t = none ∨ t = some 0)) ∧
    (∀ n t : ℚ, ¬(n = 0 ∨ t = 0) →
      getTrafficStatus (some n) (some t) = trafficBucket ((t - n) / n * 100)) ∧
    (∀ p q : ℚ, p ≤ q →
      severityRank (trafficBucket p) ≤ severityRank (trafficBucket q)) ∧
    (∀ p : ℚ,
      (p ≤ 10 → trafficBucket p = "Light traffic") ∧
      (10 < p → p ≤ 30 → trafficBucket p = "Moderate traffic") ∧
      (30 < p → p ≤ 50 → trafficBucket p = "Heavy traffic") ∧
      (50 < p → trafficBucket p = "Severe traffic")) := by
  refine ⟨?_, ?_, ?_, ?_⟩
  · intro n t
    cases n with
    | none => simp [getTrafficStatus]
    | some n =>
      cases t with
      | none => simp [getTrafficStatus]
      | some t =>
        unfold getTrafficStatus
        dsimp only
        split_ifs with h
        · constructor
          · intro _
            rcases h with h | h <;> simp [h]
          · intro _
            rfl
        · have hne : trafficBucket ((t - n) / n * 100) ≠ "Unknown" := by
            unfold trafficBucket
            split_ifs <;> decide
          refine iff_of_false hne ?_
          push_neg at h
          rintro (hc | hc | hc | hc) <;> simp_all
  · intro n t h
    unfold getTrafficStatus
    dsimp only
    split_ifs
    rfl
  · intro p q hpq
    unfold trafficBucket
    split_ifs <;> first | decide | linarith
  · intro p
    refine ⟨fun h1 => ?_, fun h1 h2 => ?_, fun h1 h2 => ?_, fun h1 => ?_⟩ <;>
      (unfold trafficBucket; split_ifs <;> first | rfl | linarith)

/-- Witness for C3. -/
theorem getTrafficStatus_spec_witness :
    getTrafficStatus (some 600) (some 900) = trafficBucket ((900 - 600) / 600 * 100) ∧
    severityRank (trafficBucket 5) ≤ severityRank (trafficBucket 50) :=
  ⟨getTrafficStatus_spec.2.1 600 900 (by norm_num),
   getTrafficStatus_spec.2.2.1 5 50 (by norm_num)⟩

/-- Claim C7. -/
theorem classifyQuery_spec :
    (∀ e : String, classifyQuery (.error e) = "directions") ∧
    (∀ reply : String, classifyQuery (.ok reply) = jsToLower (jsTrim reply)) ∧
    classifyQuery (.ok "  WEATHER ") = "weather" ∧
    (["directions", "traffic_check", "duration_check",
      "route_status"].contains "weather") = false := by
  refine ⟨fun e => rfl, fun reply => rfl, by decide, by decide⟩


/-- Claim C1. -/
theorem cacheHit_returns_cached (up : Upstream) (mapsKey : String) (now : Nat)
    (currentTime : String) (cache : CacheState) (q : String) (entry : CacheEntry)
    (h : cacheGet cache now (jsTrim (jsToLower q)) = some entry) :
    getDirections up mapsKey now currentTime cache (some q) =
      { res := { status := 200, body := .success entry.response entry.query_type }
        cache := cache
        calls := [] } := by
  unfold getDirections
  dsimp only
  rw [h]

/-- Witness cache for C1. -/
def cacheW : CacheState :=
  [("ikeja to yaba", { response := "cached", query_type := "directions" }, 0)]

/-- Witness for C1. -/
theorem cacheHit_returns_cached_witness :
    getDirections upSample "key" 100 "12:00:00" cacheW (some " Ikeja TO Yaba ") =
      { res := { status := 200, body := .success "cached" "directions" }
        cache := cacheW
        calls := [] } :=
  cacheHit_returns_cached upSample "key" 100 "12:00:00" cacheW " Ikeja TO Yaba "
    { response := "cached", query_type := "directions" } (by decide)

/-- Claim C5 (code behaviour at the failing input). -/
theorem missingQuery_yields_500 (up : Upstream) (mapsKey : String) (now : Nat)
    (currentTime : String) (cache : CacheState) :
    getDirections up mapsKey now currentTime cache none =
      { res := { status := 500
                 body := .error "Error processing request"
                   (some "Cannot read properties of undefined (reading 'toLowerCase')") }
        cache := cache
        calls := [] } := rfl

/-- Counterexample for C6. -/
theorem provider_notFound_counterexample :
    (getDirections upSample "key" 0 "12:00:00" [] (some "how do I get to Yaba")).res =
      { status := 500
        body := .error "Error processing request"
          (some "Invalid response: NOT_FOUND") } ∧
    (getDirections upSample "key" 0 "12:00:00" [] (some "how do I get to Yaba")).res.status ≠ 404 := by
  constructor
  · rfl
  · decide

/-- Amended C6. -/
theorem provider_nonOK_yields_500 (up : Upstream) (mapsKey : String) (now : Nat)
    (currentTime : String) (cache : CacheState) (q : String) (intent : Intent)
    (d : DirData)
    (hq : q ≠ "")
    (hmiss : cacheGet cache now (jsTrim (jsToLower q)) = none)
    (hex : up.extractLocationsAndMode q = .ok intent)
    (hdir : up.directions
      { origin := intent.origin, destination := intent.destination, key := mapsKey,
        modeConfig := intent.modeConfig, departure_time := "now",
        alternatives := true, traffic_model := "best_guess" } = .ok { data := some d })
    (hst : d.status ≠ "OK") :
    (getDirections up mapsKey now currentTime cache (some q)).res =
      { status := 500
        body := .error "Error processing request"
          (some ("Invalid response: " ++ d.status)) } := by
  unfold getDirections
  dsimp only
  rw [hmiss]
  simp only [hq, if_false, if_neg]
  rw [hex]
  dsimp only
  rw [hdir]
  dsimp only
  simp [hst]

/-- Witness for amended C6. -/
theorem provider_nonOK_yields_500_witness :
    (getDirections upSample "key" 0 "12:00:00" [] (some "go to Yaba")).res =
      { status := 500
        body := .error "Error processing request"
          (some ("Invalid response: " ++ "NOT_FOUND")) } :=
  provider_nonOK_yields_500 upSample "key" 0 "12:00:00" [] "go to Yaba"
    { origin := "Ikeja, Lagos, Nigeria", destination := "Yaba, Lagos, Nigeria",
      mode := "car",
      modeConfig := { mode := "DRIVING", avoid := none, transit_mode := none } }
    { status := "NOT_FOUND", routes := [] }
    (by decide) (by rfl) (by rfl) (by rfl) (by decide)

/-- Claim C8. -/
theorem errors_not_cached (up : Upstream) (mapsKey : String) (now : Nat)
    (currentTime : String) (cache : CacheState) (reqQuery : Option String) :
    ((getDirections up mapsKey now currentTime cache reqQuery).res.status ≠ 200 →
      (getDirections up mapsKey now currentTime cache reqQuery).cache = cache) ∧
    ((getDirections up mapsKey now currentTime cache reqQuery).cache ≠ cache →
      ∃ q fr qt, reqQuery = some q ∧
        (getDirections up mapsKey now currentTime cache reqQuery).res =
          { status := 200, body := .success fr qt } ∧
        (getDirections up mapsKey now currentTime cache reqQuery).cache =
          cacheSet cache now (jsTrim (jsToLower q))
            { response := fr, query_type := qt }) := by
  cases reqQuery with
  | none => simp [getDirections]
  | some q =>
    unfold getDirections
    dsimp only
    split
    · simp
    · split
      · simp
      · split
        · simp
        · split
          · simp
          · split
            · simp
            · split
              · simp
              · split
                · simp
                · constructor
                  · intro h
                    exact absurd rfl h
                  · intro _
                    exact ⟨q, _, _, rfl, rfl, rfl⟩

/-- Witness for C8. -/
theorem errors_not_cached_witness :
    (getDirections upSample "key" 0 "12:00:00" [] (some "anything")).cache = [] :=
  (errors_not_cached upSample "key" 0 "12:00:00" [] (some "anything")).1 (by decide)


end RouteGPT
